import Mathlib

/-!
Verification of the connection-manager core of the jfrog-vscode-extension
repository (src/main/connect/connectionManager.ts).

The TypeScript class ConnectionManager is embedded shallowly:

* the mutable fields _url, _username, _password become ManagerState;
* every external collaborator that the class reads (VS Code globalState,
  the keytar OS vault, VS Code input boxes, the workspace proxy settings,
  the Xray summary endpoint, ConnectionUtils.checkConnection) is modelled
  as a read-only environment Env describing what those collaborators
  would answer during one execution;
* every observable side effect (storage reads and writes, vault reads and
  writes, input-box invocations, the connection check, the summary
  request) is recorded in an event trace, so ordering and absence of
  effects are provable;
* crypto.createHash applied to sha256 is embedded as a full executable
  SHA-256 over the UTF-8 bytes of the input, so account ids are computed
  exactly as in the source.

Asynchronous methods are single-threaded sequential compositions in the
source (every await is on a single chain), so they are embedded as pure
functions from state and environment to result, next state and trace.
-/

namespace Jfrog

/-! ## SHA-256, as used by createAccountId

crypto.createHash('sha256').update(s).digest('hex') over the UTF-8 bytes
of s.  Words are Nats reduced mod 2^32.
-/

/-- Truncate to a 32-bit word. -/
def w32 (x : Nat) : Nat := x % 4294967296

/-- 32-bit right rotation. -/
def rotr32 (n x : Nat) : Nat := w32 ((x >>> n) ||| (x <<< (32 - n)))

/-- The SHA-256 round constants, written in decimal. -/
def shaK : List Nat :=
  [1116352408, 1899447441, 3049323471, 3921009573, 961987163, 1508970993,
   2453635748, 2870763221, 3624381080, 310598401, 607225278, 1426881987,
   1925078388, 2162078206, 2614888103, 3248222580, 3835390401, 4022224774,
   264347078, 604807628, 770255983, 1249150122, 1555081692, 1996064986,
   2554220882, 2821834349, 2952996808, 3210313671, 3336571891, 3584528711,
   113926993, 338241895, 666307205, 773529912, 1294757372, 1396182291,
   1695183700, 1986661051, 2177026350, 2456956037, 2730485921, 2820302411,
   3259730800, 3345764771, 3516065817, 3600352804, 4094571909, 275423344,
   430227734, 506948616, 659060556, 883997877, 958139571, 1322822218,
   1537002063, 1747873779, 1955562222, 2024104815, 2227730452, 2361852424,
   2428436474, 2756734187, 3204031479, 3329325298]

/-- The SHA-256 initial hash value, written in decimal. -/
def shaH0 : List Nat :=
  [1779033703, 3144134277, 1013904242, 2773480762,
   1359893119, 2600822924, 528734635, 1541459225]

/-- Pad a byte message per SHA-256: append 0x80, zeros, and the 64-bit
big-endian bit length, reaching a multiple of 64 bytes. -/
def shaPad (msg : List Nat) : List Nat :=
  let len := msg.length
  let bitLen := len * 8
  let zeros := (64 - ((len + 9) % 64)) % 64
  msg ++ [0x80] ++ List.replicate zeros 0 ++
    [(bitLen >>> 56) % 256, (bitLen >>> 48) % 256, (bitLen >>> 40) % 256, (bitLen >>> 32) % 256,
     (bitLen >>> 24) % 256, (bitLen >>> 16) % 256, (bitLen >>> 8) % 256, bitLen % 256]

/-- Combine bytes big-endian into 32-bit words, four at a time. -/
def wordsOfBytes : List Nat → List Nat
  | b0 :: b1 :: b2 :: b3 :: rest => (b0 <<< 24 ||| b1 <<< 16 ||| b2 <<< 8 ||| b3) :: wordsOfBytes rest
  | _ => []

/-- Extend the 16 message words of a block to the 64-entry schedule. -/
def extendW (w : Array Nat) : Array Nat :=
  (List.range 48).foldl
    (fun w i =>
      let t := i + 16
      let w15 := w.getD (t - 15) 0
      let w2 := w.getD (t - 2) 0
      let s0 := (rotr32 7 w15) ^^^ (rotr32 18 w15) ^^^ (w15 >>> 3)
      let s1 := (rotr32 17 w2) ^^^ (rotr32 19 w2) ^^^ (w2 >>> 10)
      w.push (w32 (w.getD (t - 16) 0 + s0 + w.getD (t - 7) 0 + s1)))
    w

/-- One SHA-256 compression step over a 64-byte block. -/
def compressBlock (h : List Nat) (block : List Nat) : List Nat :=
  let w := extendW (wordsOfBytes block).toArray
  let init := (h.getD 0 0, h.getD 1 0, h.getD 2 0, h.getD 3 0,
               h.getD 4 0, h.getD 5 0, h.getD 6 0, h.getD 7 0)
  let res := (List.range 64).foldl
    (fun st i =>
      let (a, b, c, d, e, f, g, hh) := st
      let s1 := (rotr32 6 e) ^^^ (rotr32 11 e) ^^^ (rotr32 25 e)
      let ch := (e &&& f) ^^^ ((4294967295 - e) &&& g)
      let t1 := w32 (hh + s1 + ch + shaK.getD i 0 + w.getD i 0)
      let s0 := (rotr32 2 a) ^^^ (rotr32 13 a) ^^^ (rotr32 22 a)
      let mj := (a &&& b) ^^^ (a &&& c) ^^^ (b &&& c)
      let t2 := w32 (s0 + mj)
      (w32 (t1 + t2), a, b, c, w32 (d + t1), e, f, g))
    init
  let (a, b, c, d, e, f, g, hh) := res
  [w32 (h.getD 0 0 + a), w32 (h.getD 1 0 + b), w32 (h.getD 2 0 + c), w32 (h.getD 3 0 + d),
   w32 (h.getD 4 0 + e), w32 (h.getD 5 0 + f), w32 (h.getD 6 0 + g), w32 (h.getD 7 0 + hh)]

/-- Fold the compression over the blocks; the fuel is the block count, so
the recursion is structural and reduces in the kernel. -/
def shaBlocksLoop : Nat → List Nat → List Nat → List Nat
  | 0, h, _ => h
  | n + 1, h, xs => shaBlocksLoop n (compressBlock h (xs.take 64)) (xs.drop 64)

/-- SHA-256 digest of a byte message, as eight 32-bit words. -/
def sha256Words (msg : List Nat) : List Nat :=
  let padded := shaPad msg
  shaBlocksLoop (padded.length / 64) shaH0 padded

/-- Lower-case hex digit. -/
def hexDigitChar (n : Nat) : Char :=
  if n < 10 then Char.ofNat (48 + n) else Char.ofNat (87 + n)

/-- Eight hex digits of a 32-bit word, most significant first. -/
def hexOfWord (x : Nat) : List Char :=
  [hexDigitChar ((x >>> 28) % 16), hexDigitChar ((x >>> 24) % 16),
   hexDigitChar ((x >>> 20) % 16), hexDigitChar ((x >>> 16) % 16),
   hexDigitChar ((x >>> 12) % 16), hexDigitChar ((x >>> 8) % 16),
   hexDigitChar ((x >>> 4) % 16), hexDigitChar (x % 16)]

/-- Hex-encoded SHA-256 digest of a byte message. -/
def sha256Hex (msg : List Nat) : String :=
  ⟨(sha256Words msg).flatMap hexOfWord⟩

/-- UTF-8 encoding of one code point. -/
def utf8Bytes (c : Nat) : List Nat :=
  if c < 0x80 then [c]
  else if c < 0x800 then [0xc0 ||| (c >>> 6), 0x80 ||| (c &&& 0x3f)]
  else if c < 0x10000 then
    [0xe0 ||| (c >>> 12), 0x80 ||| ((c >>> 6) &&& 0x3f), 0x80 ||| (c &&& 0x3f)]
  else
    [0xf0 ||| (c >>> 18), 0x80 ||| ((c >>> 12) &&& 0x3f), 0x80 ||| ((c >>> 6) &&& 0x3f),
     0x80 ||| (c &&& 0x3f)]

/-- UTF-8 bytes of a string, as Node hashes it. -/
def strBytes (s : String) : List Nat := s.data.flatMap (fun c => utf8Bytes c.toNat)

/-! ## Constants of ConnectionManager -/

/-- The username key in the VS Code global configuration. -/
def XRAY_USERNAME_KEY : String := "jfrog.xray.username"

/-- The URL key in the VS Code global configuration. -/
def XRAY_URL_KEY : String := "jfrog.xray.url"

/-- Service id in the OS key store for the password. -/
def SERVICE_ID : String := "com.jfrog.xray.vscode"

/-- Modelled from the spec: the package version read from package.json,
which is not among the sources; the User-Agent constant is the fixed
product name joined with this version. -/
def packageVersion : String := "1.0.0"

/-- The User-Agent header value. -/
def USER_AGENT : String := "jfrog-vscode-extension/" ++ packageVersion

/-- createAccountId: hex SHA-256 of url concatenated with username. -/
def createAccountId (url : String) (username : String) : String :=
  sha256Hex (strBytes (url ++ username))

/-! ## Data model -/

/-- The in-memory credential fields _url, _username, _password of
ConnectionManager (all initialized to the empty string). -/
structure ManagerState where
  url : String
  username : String
  password : String
deriving DecidableEq, Repr

/-- The state of a freshly constructed ConnectionManager. -/
def initialState : ManagerState := ⟨"", "", ""⟩

/-- The components of a parsed proxy URL as Node's URL object exposes
them: protocol, host, and the port as a (possibly empty) digit string. -/
structure ParsedUrl where
  protocol : String
  host : String
  port : String
deriving DecidableEq, Repr

/-- One component identifier sent to the summary endpoint. -/
structure ComponentDetails where
  componentId : String
deriving DecidableEq, Repr

/-- One artifact of the summary response (opaque to this core). -/
structure Artifact where
  payload : String
deriving DecidableEq, Repr

/-- Read-only answers of every external collaborator during one
execution: the VS Code globalState entries, the keytar vault content
(an association list from account id to password under SERVICE_ID),
the result the user gives each input box (none when dismissed), the
workspace proxy settings, the parse of the proxy URL as Node's URL
would produce it, and the summary response.  ConnectionValidator
(ConnectionUtils.checkConnection, whose file is not among the sources)
is modelled from the spec as the boolean connectionOk: it returns true
exactly when the server is reachable and the credentials accepted. -/
structure Env where
  storedUrl : Option String
  storedUsername : Option String
  vault : List (String × String)
  urlInput : Option String
  usernameInput : Option String
  passwordInput : Option String
  connectionOk : Bool
  proxySupport : Option String
  httpProxy : Option String
  parsedProxy : ParsedUrl
  proxyAuthorization : Option String
  artifacts : List Artifact
deriving DecidableEq, Repr

/-- JavaScript (x || two-quote empty): an absent or empty string value
collapses to the empty string. -/
def orEmpty (x : Option String) : String := x.getD ""

/-- The proxy field of a client config: the source returns either the
literal false or an IProxyConfig object, and an object (even an empty
one) is truthy where false is not, so the two are kept as distinct
constructors. -/
structure ProxyConfig where
  protocol : Option String := none
  host : Option String := none
  port : Option Nat := none
deriving DecidableEq, Repr

/-- Result of getProxyConfig: IProxyConfig or the literal false. -/
inductive ProxyResult where
  | disabled
  | config (c : ProxyConfig)
deriving DecidableEq, Repr

/-- A client config: the fields of the IClientConfig object literal.
The GoCenter literal omits serverUrl, username and password, so those
are Options, none meaning the field is absent. -/
structure ClientConfig where
  serverUrl : Option String := none
  username : Option String := none
  password : Option String := none
  headers : List (String × String) := []
  proxy : ProxyResult
deriving DecidableEq, Repr

/-- Observable effects, in execution order: globalState reads and
writes, input-box invocations (with the message, the pre-filled value,
and whether the input is masked), vault reads and writes, the
connection check (with the client config it is given), and the summary
request (with the client config and the component details). -/
inductive Event where
  | globalStateGet (key : String)
  | inputBox (message : String) (defaultValue : Option String) (isPassword : Bool)
  | vaultGet (serviceId : String) (accountId : String)
  | globalStateUpdate (key : String) (value : String)
  | vaultSet (serviceId : String) (accountId : String) (value : String)
  | connectionCheck (config : ClientConfig)
  | summaryRequest (config : ClientConfig) (request : List ComponentDetails)
deriving DecidableEq, Repr

/-- JavaScript object assignment on a string-keyed map: replace the
value when the key exists, append the entry otherwise. -/
def setHeader : List (String × String) → String → String → List (String × String)
  | [], k, v => [(k, v)]
  | (k1, v1) :: rest, k, v =>
    if k1 = k then (k, v) :: rest else (k1, v1) :: setHeader rest k v

/-! ## Operations of ConnectionManager -/

/-- retrieveUrl: read the stored url from globalState; when prompting,
the result is instead the input box answer (pre-filled with the
in-memory url when non-empty, with a https scheme placeholder
otherwise), empty when dismissed. -/
def retrieveUrl (m : ManagerState) (env : Env) (prompt : Bool) : String × List Event :=
  let url := orEmpty env.storedUrl
  let events := [Event.globalStateGet XRAY_URL_KEY]
  if prompt then
    (orEmpty env.urlInput,
     events ++ [Event.inputBox "Enter Xray url"
       (some (if m.url ≠ "" then m.url else "https://")) false])
  else (url, events)

/-- retrieveUsername: read the stored username from globalState; when
prompting, the result is instead the input box answer (pre-filled with
the in-memory username), empty when dismissed. -/
def retrieveUsername (m : ManagerState) (env : Env) (prompt : Bool) : String × List Event :=
  let username := orEmpty env.storedUsername
  let events := [Event.globalStateGet XRAY_USERNAME_KEY]
  if prompt then
    (orEmpty env.usernameInput,
     events ++ [Event.inputBox "Enter Xray username" (some m.username) false])
  else (username, events)

/-- retrievePassword: read the password from the vault under the
account id derived from the url and username arguments; when
prompting, the result is instead the masked input box answer, empty
when dismissed. -/
def retrievePassword (env : Env) (prompt : Bool) (url : String) (username : String) :
    String × List Event :=
  let password := orEmpty (env.vault.lookup (createAccountId url username))
  let events := [Event.vaultGet SERVICE_ID (createAccountId url username)]
  if prompt then
    (orEmpty env.passwordInput, events ++ [Event.inputBox "Enter Xray password" none true])
  else (password, events)

/-- populateCredentials: resolve url, then username, then password,
aborting with false as soon as one resolves empty; only when all three
are non-empty are the three in-memory fields assigned, together. -/
def populateCredentials (m : ManagerState) (env : Env) (prompt : Bool) :
    Bool × ManagerState × List Event :=
  let url := (retrieveUrl m env prompt).1
  let e1 := (retrieveUrl m env prompt).2
  if url = "" then (false, m, e1)
  else
    let username := (retrieveUsername m env prompt).1
    let e2 := (retrieveUsername m env prompt).2
    if username = "" then (false, m, e1 ++ e2)
    else
      let password := (retrievePassword env prompt url username).1
      let e3 := (retrievePassword env prompt url username).2
      if password = "" then (false, m, e1 ++ e2 ++ e3)
      else (true, ⟨url, username, password⟩, e1 ++ e2 ++ e3)

/-- storeUrl: write the in-memory url to globalState. -/
def storeUrl (m : ManagerState) : List Event :=
  [Event.globalStateUpdate XRAY_URL_KEY m.url]

/-- storeUsername: write the in-memory username to globalState. -/
def storeUsername (m : ManagerState) : List Event :=
  [Event.globalStateUpdate XRAY_USERNAME_KEY m.username]

/-- storePassword: write the in-memory password to the vault under the
account id derived from the in-memory url and username. -/
def storePassword (m : ManagerState) : List Event :=
  [Event.vaultSet SERVICE_ID (createAccountId m.url m.username) m.password]

/-- getProxyConfig: the http.proxySupport setting (default override)
turned off yields the literal false; otherwise an IProxyConfig object,
filled from the parsed http.proxy URL when one is configured (the port
only when the URL carries one), left empty otherwise. -/
def getProxyConfig (env : Env) : ProxyResult :=
  let proxySupport := env.proxySupport.getD "override"
  if proxySupport = "off" then ProxyResult.disabled
  else
    let httpProxy := orEmpty env.httpProxy
    if httpProxy ≠ "" then
      let u := env.parsedProxy
      ProxyResult.config
        { protocol := some u.protocol, host := some u.host,
          port := if u.port ≠ "" then some (u.port.toNat?.getD 0) else none }
    else ProxyResult.config {}

/-- addUserAgentHeader: set the User-Agent header. -/
def addUserAgentHeader (cfg : ClientConfig) : ClientConfig :=
  { cfg with headers := setHeader cfg.headers "User-Agent" USER_AGENT }

/-- addProxyAuthHeader: when the proxy field is truthy (an object, even
an empty one) and the http.proxyAuthorization setting is a non-empty
string, set the Proxy-Authorization header. -/
def addProxyAuthHeader (env : Env) (cfg : ClientConfig) : ClientConfig :=
  match cfg.proxy with
  | ProxyResult.disabled => cfg
  | ProxyResult.config _ =>
    let auth := orEmpty env.proxyAuthorization
    if auth ≠ "" then { cfg with headers := setHeader cfg.headers "Proxy-Authorization" auth }
    else cfg

/-- createXrayClient: the config carries the in-memory credentials, an
initially empty headers map and the resolved proxy, then the
User-Agent and conditional Proxy-Authorization headers are added. -/
def createXrayClient (m : ManagerState) (env : Env) : ClientConfig :=
  let cfg : ClientConfig :=
    { serverUrl := some m.url, username := some m.username, password := some m.password,
      headers := [], proxy := getProxyConfig env }
  addProxyAuthHeader env (addUserAgentHeader cfg)

/-- createGoCenterClient: the config literal carries only headers and
proxy (no serverUrl, username or password fields), then the User-Agent
and conditional Proxy-Authorization headers are added.  The method is
on the same class, so it receives the manager state, which its body
does not read. -/
def createGoCenterClient (_m : ManagerState) (env : Env) : ClientConfig :=
  let cfg : ClientConfig := { headers := [], proxy := getProxyConfig env }
  addProxyAuthHeader env (addUserAgentHeader cfg)

/-- areCredentialsSet: all three in-memory fields are non-empty. -/
def areCredentialsSet (m : ManagerState) : Bool :=
  m.url != "" && m.username != "" && m.password != ""

/-- connect: interactive population first, returning false when it
fails; otherwise build the client, run the connection check, return
false when it fails, and only on success store url, then username,
then password, and return true. -/
def connect (m : ManagerState) (env : Env) : Bool × ManagerState × List Event :=
  let ok := (populateCredentials m env true).1
  let m1 := (populateCredentials m env true).2.1
  let e1 := (populateCredentials m env true).2.2
  if !ok then (false, m1, e1)
  else
    let xrayClient := createXrayClient m1 env
    let e2 := e1 ++ [Event.connectionCheck xrayClient]
    if !env.connectionOk then (false, m1, e2)
    else (true, m1, e2 ++ storeUrl m1 ++ storeUsername m1 ++ storePassword m1)

/-- activate: on startup, populate the credentials without prompting;
failure is non-fatal. -/
def activate (m : ManagerState) (env : Env) : ManagerState × List Event :=
  ((populateCredentials m env false).2.1, (populateCredentials m env false).2.2)

/-- getComponents: when the credentials are not set, attempt a
non-interactive population (ignoring its result), then build the
client and issue the summary request, returning the artifacts of the
response. -/
def getComponents (m : ManagerState) (env : Env) (componentDetails : List ComponentDetails) :
    List Artifact × ManagerState × List Event :=
  let m1 := if areCredentialsSet m then m else (populateCredentials m env false).2.1
  let e1 := if areCredentialsSet m then [] else (populateCredentials m env false).2.2
  let xrayClient := createXrayClient m1 env
  (env.artifacts, m1, e1 ++ [Event.summaryRequest xrayClient componentDetails])

/-! ## Observation helpers -/

/-- Writes to durable storage or to the vault. -/
def isWriteEvent : Event → Bool
  | Event.globalStateUpdate _ _ => true
  | Event.vaultSet _ _ _ => true
  | _ => false

/-- The subtrace of durable-storage and vault writes, in order. -/
def writeEvents (tr : List Event) : List Event := tr.filter isWriteEvent

/-- Invocations of the interactive prompt capability. -/
def isPromptEvent : Event → Bool
  | Event.inputBox _ _ _ => true
  | _ => false

/-- Vault lookups. -/
def isVaultGet : Event → Bool
  | Event.vaultGet _ _ => true
  | _ => false

/-- Truthiness of the proxy field: an object is truthy, false is not. -/
def proxyOn : ProxyResult → Bool
  | ProxyResult.disabled => false
  | ProxyResult.config _ => true

/-- A header map contains a key. -/
def hasHeader (cfg : ClientConfig) (k : String) : Bool := (cfg.headers.lookup k).isSome

/-- Reachable credential shapes: the fields start all empty and are
only ever assigned all at once to non-empty values, so they are all
empty or all non-empty. -/
def EmptyOrComplete (m : ManagerState) : Prop :=
  (m.url = "" ∧ m.username = "" ∧ m.password = "") ∨
    (m.url ≠ "" ∧ m.username ≠ "" ∧ m.password ≠ "")

/-! ## Concrete environments for witnesses and counterexamples -/

/-- Nothing stored, the user answers all three interactive prompts, the
connection check fails. -/
def envC1 : Env :=
  ⟨none, none, [], some "https://x.example", some "bob", some "secret", false,
   none, none, ⟨"", "", ""⟩, none, []⟩

/-- Nothing stored, the user answers all three interactive prompts, the
connection check succeeds. -/
def envC2 : Env :=
  ⟨none, none, [], some "https://x.example", some "bob", some "secret", true,
   none, none, ⟨"", "", ""⟩, none, []⟩

/-- A stored url but no stored username and an empty vault. -/
def envC3 : Env :=
  ⟨some "https://x.example", none, [], none, none, none, false,
   none, none, ⟨"", "", ""⟩, none, []⟩

/-- Stored url and username differ from the ones the user enters at the
prompts. -/
def envC4 : Env :=
  ⟨some "https://a", some "alice", [], some "https://b", some "bob", some "pw", false,
   none, none, ⟨"", "", ""⟩, none, []⟩

/-- Nothing stored, the user answers all three interactive prompts, the
connection check fails. -/
def envC5 : Env :=
  ⟨none, none, [], some "https://x.example", some "bob", some "secret", false,
   none, none, ⟨"", "", ""⟩, none, []⟩

/-- Nothing stored and no prompt answers. -/
def envC6 : Env :=
  ⟨none, none, [], none, none, none, false, none, none, ⟨"", "", ""⟩, none, []⟩

/-- Proxy support turned off while a proxy URL is configured. -/
def envC7 : Env :=
  ⟨none, none, [], none, none, none, false, some "off",
   some "http://proxy.example:8080", ⟨"http:", "proxy.example:8080", "8080"⟩, none, []⟩

/-- Proxy enabled with a configured proxy URL and an ambient
proxy-authorization value. -/
def envC8 : Env :=
  ⟨none, none, [], none, none, none, false, none,
   some "http://proxy.example:8080", ⟨"http:", "proxy.example:8080", "8080"⟩,
   some "Basic Zm9vOmJhcg==", []⟩

/-- A credential state for exercising the GoCenter client. -/
def envC9 : Env :=
  ⟨none, none, [], none, none, none, false, none, none, ⟨"", "", ""⟩, none, []⟩

/-- Nothing stored, so the non-interactive population fails, and one
artifact in the summary response. -/
def envC10 : Env :=
  ⟨none, none, [], none, none, none, false, none, none, ⟨"", "", ""⟩, none,
   [⟨"artifact-1"⟩]⟩

/-! ## Supporting lemmas -/

set_option maxRecDepth 100000 in
/-- The SHA-256 embedding reproduces the standard test vector. -/
theorem sha256_test_vector :
    sha256Hex (strBytes "abc") =
      "ba7816bf8f01cfea414140de5dae2223b00361a396177a9cb410ff61f20015ad" := by
  decide

theorem writeEvents_append (a b : List Event) :
    writeEvents (a ++ b) = writeEvents a ++ writeEvents b :=
  List.filter_append ..

theorem retrieveUrl_writeEvents (m : ManagerState) (env : Env) (p : Bool) :
    writeEvents (retrieveUrl m env p).2 = [] := by
  cases p <;> rfl

theorem retrieveUsername_writeEvents (m : ManagerState) (env : Env) (p : Bool) :
    writeEvents (retrieveUsername m env p).2 = [] := by
  cases p <;> rfl

theorem retrievePassword_writeEvents (env : Env) (p : Bool) (url username : String) :
    writeEvents (retrievePassword env p url username).2 = [] := by
  cases p <;> rfl

/-- populateCredentials performs no durable-storage and no vault
writes, whatever the prompt flag and the environment. -/
theorem populate_writeEvents (m : ManagerState) (env : Env) (p : Bool) :
    writeEvents (populateCredentials m env p).2.2 = [] := by
  simp only [populateCredentials]
  split
  · exact retrieveUrl_writeEvents m env p
  · split
    · simp [writeEvents_append, retrieveUrl_writeEvents, retrieveUsername_writeEvents]
    · split <;>
        simp [writeEvents_append, retrieveUrl_writeEvents, retrieveUsername_writeEvents,
          retrievePassword_writeEvents]

/-- A failed populateCredentials leaves the in-memory state untouched. -/
theorem populate_fail_state (m : ManagerState) (env : Env) (p : Bool)
    (h : (populateCredentials m env p).1 = false) :
    (populateCredentials m env p).2.1 = m := by
  simp only [populateCredentials] at h ⊢
  split at h
  · simp_all
  · split at h
    · simp_all
    · split at h
      · simp_all
      · simp_all

/-- A successful populateCredentials yields a state whose three fields
are the three resolved values, all non-empty. -/
theorem populate_success_state (m : ManagerState) (env : Env) (p : Bool)
    (h : (populateCredentials m env p).1 = true) :
    (populateCredentials m env p).2.1.url ≠ "" ∧
    (populateCredentials m env p).2.1.username ≠ "" ∧
    (populateCredentials m env p).2.1.password ≠ "" := by
  simp only [populateCredentials] at h ⊢
  split at h
  · simp_all
  · split at h
    · simp_all
    · split at h
      · simp_all
      · simp_all

theorem retrieveUrl_vaultGets (m : ManagerState) (env : Env) (p : Bool) :
    (retrieveUrl m env p).2.filter isVaultGet = [] := by
  cases p <;> rfl

theorem retrieveUsername_vaultGets (m : ManagerState) (env : Env) (p : Bool) :
    (retrieveUsername m env p).2.filter isVaultGet = [] := by
  cases p <;> rfl

theorem retrievePassword_vaultGets (env : Env) (p : Bool) (url username : String) :
    (retrievePassword env p url username).2.filter isVaultGet =
      [Event.vaultGet SERVICE_ID (createAccountId url username)] := by
  cases p <;> rfl

theorem retrieveUrl_false_noPrompts (m : ManagerState) (env : Env) :
    (retrieveUrl m env false).2.filter isPromptEvent = [] := rfl

theorem retrieveUsername_false_noPrompts (m : ManagerState) (env : Env) :
    (retrieveUsername m env false).2.filter isPromptEvent = [] := rfl

theorem retrievePassword_false_noPrompts (env : Env) (url username : String) :
    (retrievePassword env false url username).2.filter isPromptEvent = [] := rfl

/-- Non-interactive populateCredentials leaves no prompt event in its
trace. -/
theorem populate_false_noPrompts (m : ManagerState) (env : Env) :
    (populateCredentials m env false).2.2.filter isPromptEvent = [] := by
  simp only [populateCredentials]
  split
  · exact retrieveUrl_false_noPrompts m env
  · split
    · simp [List.filter_append, retrieveUrl_false_noPrompts, retrieveUsername_false_noPrompts]
    · split <;>
        simp [List.filter_append, retrieveUrl_false_noPrompts, retrieveUsername_false_noPrompts,
          retrievePassword_false_noPrompts]

/-- addProxyAuthHeader touches only the headers field. -/
theorem addProxyAuthHeader_fields (env : Env) (cfg : ClientConfig) :
    (addProxyAuthHeader env cfg).serverUrl = cfg.serverUrl ∧
    (addProxyAuthHeader env cfg).username = cfg.username ∧
    (addProxyAuthHeader env cfg).password = cfg.password ∧
    (addProxyAuthHeader env cfg).proxy = cfg.proxy := by
  unfold addProxyAuthHeader
  split
  · simp
  · by_cases ha : orEmpty env.proxyAuthorization = "" <;> simp [ha]

/-- The two outcomes of connect once the interactive population has
succeeded, by the connection-check result. -/
theorem connect_of_populate_success (m : ManagerState) (env : Env)
    (m1 : ManagerState) (tr : List Event)
    (hpop : populateCredentials m env true = (true, m1, tr)) :
    connect m env =
      if env.connectionOk then
        (true, m1, tr ++ [Event.connectionCheck (createXrayClient m1 env)] ++
          storeUrl m1 ++ storeUsername m1 ++ storePassword m1)
      else (false, m1, tr ++ [Event.connectionCheck (createXrayClient m1 env)]) := by
  simp only [connect, hpop]
  cases env.connectionOk <;> simp

/-! ## The claims -/

/-- Claim C1: when interactive credential population succeeds but the
connection validation returns false, connect returns false, performs no
durable-storage write and no vault write, and the populated credentials
remain as the in-memory state for the rest of the session. -/
theorem connect_failed_validation_no_writes (m : ManagerState) (env : Env)
    (m1 : ManagerState) (tr : List Event)
    (hpop : populateCredentials m env true = (true, m1, tr))
    (hconn : env.connectionOk = false) :
    (connect m env).1 = false ∧
    writeEvents (connect m env).2.2 = [] ∧
    (connect m env).2.1 = m1 := by
  have hw : writeEvents tr = [] := by
    have h := populate_writeEvents m env true
    rw [hpop] at h
    exact h
  rw [connect_of_populate_success m env m1 tr hpop, hconn]
  refine ⟨rfl, ?_, rfl⟩
  rw [if_neg (by simp)]
  rw [writeEvents_append, hw]
  rfl

/-- Witness for C1: a concrete session with all prompts answered and a
failing connection check. -/
theorem connect_failed_validation_no_writes_witness :
    (connect initialState envC1).1 = false ∧
    writeEvents (connect initialState envC1).2.2 = [] ∧
    (connect initialState envC1).2.1 = ⟨"https://x.example", "bob", "secret"⟩ :=
  connect_failed_validation_no_writes initialState envC1
    ⟨"https://x.example", "bob", "secret"⟩
    (populateCredentials initialState envC1 true).2.2 rfl rfl

/-- Claim C2: when interactive credential population succeeds and the
connection validation returns true, connect returns true and its writes
are exactly the url to durable storage, then the username to durable
storage, then the password to the vault, in that order. -/
theorem connect_success_write_order (m : ManagerState) (env : Env)
    (m1 : ManagerState) (tr : List Event)
    (hpop : populateCredentials m env true = (true, m1, tr))
    (hconn : env.connectionOk = true) :
    (connect m env).1 = true ∧
    writeEvents (connect m env).2.2 =
      [Event.globalStateUpdate XRAY_URL_KEY m1.url,
       Event.globalStateUpdate XRAY_USERNAME_KEY m1.username,
       Event.vaultSet SERVICE_ID (createAccountId m1.url m1.username) m1.password] := by
  have hw : writeEvents tr = [] := by
    have h := populate_writeEvents m env true
    rw [hpop] at h
    exact h
  rw [connect_of_populate_success m env m1 tr hpop, hconn]
  refine ⟨rfl, ?_⟩
  rw [if_pos rfl]
  simp only [writeEvents_append, hw]
  rfl

/-- Witness for C2: the same session with a succeeding connection
check. -/
theorem connect_success_write_order_witness :
    (connect initialState envC2).1 = true ∧
    writeEvents (connect initialState envC2).2.2 =
      [Event.globalStateUpdate XRAY_URL_KEY "https://x.example",
       Event.globalStateUpdate XRAY_USERNAME_KEY "bob",
       Event.vaultSet SERVICE_ID (createAccountId "https://x.example" "bob") "secret"] :=
  connect_success_write_order initialState envC2
    ⟨"https://x.example", "bob", "secret"⟩
    (populateCredentials initialState envC2 true).2.2 rfl rfl

/-- Claim C3: a stage of populateCredentials resolving empty makes the
whole operation return false with the in-memory fields untouched; the
fields are assigned, all three together, only when all three stages
resolved non-empty, and then they carry exactly those resolved
values. -/
theorem populate_atomic (m : ManagerState) (env : Env) (p : Bool) :
    ((populateCredentials m env p).1 = false → (populateCredentials m env p).2.1 = m) ∧
    ((populateCredentials m env p).1 = true →
      (populateCredentials m env p).2.1 =
        ⟨(retrieveUrl m env p).1, (retrieveUsername m env p).1,
         (retrievePassword env p (retrieveUrl m env p).1 (retrieveUsername m env p).1).1⟩ ∧
      (retrieveUrl m env p).1 ≠ "" ∧
      (retrieveUsername m env p).1 ≠ "" ∧
      (retrievePassword env p (retrieveUrl m env p).1 (retrieveUsername m env p).1).1 ≠ "") := by
  refine ⟨populate_fail_state m env p, fun h => ?_⟩
  simp only [populateCredentials] at h ⊢
  split at h
  · simp_all
  · split at h
    · simp_all
    · split at h
      · simp_all
      · simp_all

/-- Witness for C3: the spec scenario of a stored url with no stored
username and no prompting returns false and leaves the state
untouched. -/
theorem populate_atomic_witness :
    (populateCredentials initialState envC3 false).1 = false ∧
    (populateCredentials initialState envC3 false).2.1 = initialState :=
  ⟨rfl, (populate_atomic initialState envC3 false).1 rfl⟩

set_option maxRecDepth 100000 in
/-- Claim C4 as stated fails: with prompt true and a stored url and
username different from the newly entered ones, the single vault
lookup of the run is keyed by the account id of the newly entered
pair, which is not the account id of the stored pair. -/
theorem populate_vault_key_counterexample :
    (populateCredentials initialState envC4 true).2.2.filter isVaultGet =
      [Event.vaultGet SERVICE_ID (createAccountId "https://b" "bob")] ∧
    orEmpty envC4.storedUrl = "https://a" ∧
    orEmpty envC4.storedUsername = "alice" ∧
    createAccountId "https://b" "bob" ≠ createAccountId "https://a" "alice" := by
  refine ⟨rfl, rfl, rfl, ?_⟩
  decide

/-- Claim C4 (amended): the vault lookup of populateCredentials is
keyed by the account id derived from the url and username resolved
earlier in the same call — the stored values when prompt is false, the
newly entered values when prompt is true — never from the in-memory
fields. -/
theorem populate_vault_key (m : ManagerState) (env : Env) (p : Bool)
    (hu : (retrieveUrl m env p).1 ≠ "") (hn : (retrieveUsername m env p).1 ≠ "") :
    (populateCredentials m env p).2.2.filter isVaultGet =
      [Event.vaultGet SERVICE_ID
        (createAccountId (retrieveUrl m env p).1 (retrieveUsername m env p).1)] := by
  simp only [populateCredentials]
  rw [if_neg hu, if_neg hn]
  split <;>
    simp [List.filter_append, retrieveUrl_vaultGets, retrieveUsername_vaultGets,
      retrievePassword_vaultGets]

/-- Witness for C4 (amended) at the counterexample environment. -/
theorem populate_vault_key_witness :
    (populateCredentials initialState envC4 true).2.2.filter isVaultGet =
      [Event.vaultGet SERVICE_ID
        (createAccountId (retrieveUrl initialState envC4 true).1
          (retrieveUsername initialState envC4 true).1)] :=
  populate_vault_key initialState envC4 true (by decide) (by decide)

/-- Claim C5 as stated fails: the user answers all three prompts, the
validation fails, connect returns false — but areCredentialsSet
afterwards returns true, because the populated credentials stay in
memory for the session. -/
theorem connect_credentials_retained_counterexample :
    (connect initialState envC5).1 = false ∧
    areCredentialsSet (connect initialState envC5).2.1 = true :=
  ⟨rfl, rfl⟩

/-- Claim C5 (amended): when population with prompt true supplies
non-empty url, username and password and the validation fails, connect
returns false and a subsequent areCredentialsSet returns true. -/
theorem connect_failed_validation_credentials_set (m : ManagerState) (env : Env)
    (m1 : ManagerState) (tr : List Event)
    (hpop : populateCredentials m env true = (true, m1, tr))
    (hconn : env.connectionOk = false) :
    (connect m env).1 = false ∧ areCredentialsSet (connect m env).2.1 = true := by
  have hs := populate_success_state m env true (by rw [hpop])
  rw [hpop] at hs
  rw [connect_of_populate_success m env m1 tr hpop, hconn, if_neg (by simp)]
  refine ⟨rfl, ?_⟩
  simp [areCredentialsSet, bne_iff_ne, hs.1, hs.2.1, hs.2.2]

/-- Witness for C5 (amended) at the scenario environment. -/
theorem connect_failed_validation_credentials_set_witness :
    (connect initialState envC5).1 = false ∧
    areCredentialsSet (connect initialState envC5).2.1 = true :=
  connect_failed_validation_credentials_set initialState envC5
    ⟨"https://x.example", "bob", "secret"⟩
    (populateCredentials initialState envC5 true).2.2 rfl rfl

/-- Claim C6: with prompt false — as populateCredentials runs under
activate and under getComponents — the interactive prompt capability is
never invoked. -/
theorem noninteractive_never_prompts (m : ManagerState) (env : Env)
    (cd : List ComponentDetails) :
    (populateCredentials m env false).2.2.filter isPromptEvent = [] ∧
    (activate m env).2.filter isPromptEvent = [] ∧
    (getComponents m env cd).2.2.filter isPromptEvent = [] := by
  refine ⟨populate_false_noPrompts m env, populate_false_noPrompts m env, ?_⟩
  by_cases h : areCredentialsSet m <;>
    simp [getComponents, h, List.filter_append, populate_false_noPrompts, isPromptEvent]

/-- Claim C7: with the proxy-support toggle off the resolution yields
the literal false even when a proxy URL is configured; otherwise a
configured proxy URL yields a config with the URL protocol and host
and a port exactly when the URL carries one, and no proxy URL yields
the empty config object. -/
theorem getProxyConfig_cases (env : Env) :
    (env.proxySupport.getD "override" = "off" →
      getProxyConfig env = ProxyResult.disabled) ∧
    (env.proxySupport.getD "override" ≠ "off" → orEmpty env.httpProxy ≠ "" →
      getProxyConfig env = ProxyResult.config
        ⟨some env.parsedProxy.protocol, some env.parsedProxy.host,
         if env.parsedProxy.port ≠ "" then some (env.parsedProxy.port.toNat?.getD 0)
         else none⟩) ∧
    (env.proxySupport.getD "override" ≠ "off" → orEmpty env.httpProxy = "" →
      getProxyConfig env = ProxyResult.config ⟨none, none, none⟩) := by
  refine ⟨fun h => ?_, fun h1 h2 => ?_, fun h1 h2 => ?_⟩
  · simp [getProxyConfig, h]
  · simp [getProxyConfig, h1, h2]
  · simp [getProxyConfig, h1, h2]

/-- Witness for C7: proxy support off with a configured proxy URL. -/
theorem getProxyConfig_cases_witness :
    getProxyConfig envC7 = ProxyResult.disabled :=
  (getProxyConfig_cases envC7).1 rfl

/-- Claim C8: a Proxy-Authorization header is present in a constructed
client config exactly when the resolved proxy is not the literal false
and the ambient proxy-authorization value is non-empty — for the Xray
client and for the GoCenter client alike. -/
theorem proxy_auth_header_iff (m : ManagerState) (env : Env) :
    hasHeader (createXrayClient m env) "Proxy-Authorization" =
      (proxyOn (getProxyConfig env) && (orEmpty env.proxyAuthorization != "")) ∧
    hasHeader (createGoCenterClient m env) "Proxy-Authorization" =
      (proxyOn (getProxyConfig env) && (orEmpty env.proxyAuthorization != "")) := by
  constructor <;>
  · cases hq : getProxyConfig env <;>
      by_cases ha : orEmpty env.proxyAuthorization = "" <;>
        simp [createXrayClient, createGoCenterClient, addUserAgentHeader, addProxyAuthHeader,
          hasHeader, setHeader, proxyOn, hq, ha, bne_iff_ne, List.lookup]

/-- Claim C9: the GoCenter client config does not depend on the
in-memory credential state and carries no serverUrl, no username and
no password field, while it carries the User-Agent header and the
resolved proxy configuration. -/
theorem goCenter_config_credential_free (m1 m2 : ManagerState) (env : Env) :
    createGoCenterClient m1 env = createGoCenterClient m2 env ∧
    (createGoCenterClient m1 env).serverUrl = none ∧
    (createGoCenterClient m1 env).username = none ∧
    (createGoCenterClient m1 env).password = none ∧
    (createGoCenterClient m1 env).headers.lookup "User-Agent" = some USER_AGENT ∧
    (createGoCenterClient m1 env).proxy = getProxyConfig env := by
  refine ⟨rfl, ?_, ?_, ?_, ?_, ?_⟩ <;>
    cases hq : getProxyConfig env <;>
      by_cases ha : orEmpty env.proxyAuthorization = "" <;>
        simp [createGoCenterClient, addUserAgentHeader, addProxyAuthHeader, setHeader, hq, ha]

/-- Claim C10: when the credentials are unset and the non-interactive
population fails, getComponents reports no error: it still issues the
summary request with a client config whose serverUrl, username and
password are all the empty string, and returns the artifacts of the
response. -/
theorem getComponents_unset_credentials (m : ManagerState) (env : Env)
    (cd : List ComponentDetails)
    (hreach : EmptyOrComplete m)
    (hunset : areCredentialsSet m = false)
    (hfail : (populateCredentials m env false).1 = false) :
    (getComponents m env cd).1 = env.artifacts ∧
    (getComponents m env cd).2.2 =
      (populateCredentials m env false).2.2 ++
        [Event.summaryRequest (createXrayClient m env) cd] ∧
    (createXrayClient m env).serverUrl = some "" ∧
    (createXrayClient m env).username = some "" ∧
    (createXrayClient m env).password = some "" := by
  have hempty : m.url = "" ∧ m.username = "" ∧ m.password = "" := by
    rcases hreach with h | h
    · exact h
    · exfalso
      simp [areCredentialsSet, bne_iff_ne, h.1, h.2.1, h.2.2] at hunset
  have hm1 : (populateCredentials m env false).2.1 = m :=
    populate_fail_state m env false hfail
  have hfields := addProxyAuthHeader_fields env
    (addUserAgentHeader
      ⟨some m.url, some m.username, some m.password, [], getProxyConfig env⟩)
  refine ⟨rfl, ?_, ?_, ?_, ?_⟩
  · simp [getComponents, hunset, hm1]
  · rw [show createXrayClient m env = addProxyAuthHeader env (addUserAgentHeader
      ⟨some m.url, some m.username, some m.password, [], getProxyConfig env⟩) from rfl]
    rw [hfields.1]
    simp [addUserAgentHeader, hempty.1]
  · rw [show createXrayClient m env = addProxyAuthHeader env (addUserAgentHeader
      ⟨some m.url, some m.username, some m.password, [], getProxyConfig env⟩) from rfl]
    rw [hfields.2.1]
    simp [addUserAgentHeader, hempty.2.1]
  · rw [show createXrayClient m env = addProxyAuthHeader env (addUserAgentHeader
      ⟨some m.url, some m.username, some m.password, [], getProxyConfig env⟩) from rfl]
    rw [hfields.2.2.1]
    simp [addUserAgentHeader, hempty.2.2]

/-- Witness for C10: a fresh manager, nothing stored, one artifact in
the response. -/
theorem getComponents_unset_credentials_witness :
    (getComponents initialState envC10 []).1 = envC10.artifacts ∧
    (getComponents initialState envC10 []).2.2 =
      (populateCredentials initialState envC10 false).2.2 ++
        [Event.summaryRequest (createXrayClient initialState envC10) []] ∧
    (createXrayClient initialState envC10).serverUrl = some "" ∧
    (createXrayClient initialState envC10).username = some "" ∧
    (createXrayClient initialState envC10).password = some "" :=
  getComponents_unset_credentials initialState envC10 []
    (Or.inl ⟨rfl, rfl, rfl⟩) rfl rfl

end Jfrog
